import Mathlib

/-!
Verification of the ACDIF core manifest system (manifest.py).

The data model and the schema validator are embedded from the source file.
The source file is truncated after the field declarations of
CapabilityManifest, so the manifest-level validation (semantic-version
checks, violation aggregation) and the compatibility resolver are modelled
from the specification; each such definition is marked
"Modelled from the spec" in its doc comment.
-/

namespace ACDIF

/-- JSON-like structured values, the payload type of a schema body
(Python `Dict[str, Any]` values). -/
inductive JsonValue where
  | null : JsonValue
  | bool : Bool → JsonValue
  | num : Int → JsonValue
  | str : String → JsonValue
  | arr : List JsonValue → JsonValue
  | obj : List (String × JsonValue) → JsonValue
deriving Repr

/-- Taxonomy of module capabilities (manifest.py lines 20-29). -/
inductive CapabilityType where
  | DATA_PROCESSING
  | MODEL_TRAINING
  | API_INTEGRATION
  | STORAGE
  | COMPUTE
  | MONITORING
  | VALIDATION
  | TRANSFORMATION
deriving Repr, DecidableEq

/-- String value of each CapabilityType member, as declared in the source
(a str-valued Enum). -/
def CapabilityType.value : CapabilityType → String
  | .DATA_PROCESSING => "data_processing"
  | .MODEL_TRAINING => "model_training"
  | .API_INTEGRATION => "api_integration"
  | .STORAGE => "storage"
  | .COMPUTE => "compute"
  | .MONITORING => "monitoring"
  | .VALIDATION => "validation"
  | .TRANSFORMATION => "transformation"

/-- Pydantic coercion of a raw string to a CapabilityType member: lookup by
enum value; unknown strings are rejected, never coerced. -/
def CapabilityType.fromString (s : String) : Option CapabilityType :=
  if s = "data_processing" then some .DATA_PROCESSING
  else if s = "model_training" then some .MODEL_TRAINING
  else if s = "api_integration" then some .API_INTEGRATION
  else if s = "storage" then some .STORAGE
  else if s = "compute" then some .COMPUTE
  else if s = "monitoring" then some .MONITORING
  else if s = "validation" then some .VALIDATION
  else if s = "transformation" then some .TRANSFORMATION
  else none

/-- Semantic version compatibility levels (manifest.py lines 32-36). -/
inductive CompatibilityLevel where
  | MAJOR
  | MINOR
  | PATCH
deriving Repr, DecidableEq

/-- Supported schema types (manifest.py lines 39-44). -/
inductive SchemaType where
  | JSON_SCHEMA
  | PROTOBUF
  | AVRO
  | OPENAPI
deriving Repr, DecidableEq

/-- The default draft identifier injected into JSON-Schema bodies that lack
one (manifest.py line 66). -/
def defaultJsonSchemaId : String := "http://json-schema.org/draft-07/schema#"

/-- Field validator for IOSchema.schema_definition (manifest.py lines 56-72).
The body is a string-keyed mapping, embedded as an association list in
insertion order; Python dict assignment of a fresh key appends at the end.
A raised ValueError is embedded as an Except.error with the message. -/
def validate_schema_definition (schema_type : SchemaType)
    (v : List (String × JsonValue)) :
    Except String (List (String × JsonValue)) :=
  match schema_type with
  | .JSON_SCHEMA =>
      if (v.lookup "$schema").isNone then
        .ok (v ++ [("$schema", JsonValue.str defaultJsonSchemaId)])
      else
        .ok v
  | .OPENAPI =>
      if (v.lookup "openapi").isNone then
        .error "OpenAPI schema must specify version"
      else
        .ok v
  | _ => .ok v

/-- Input/Output schema definition for capability contracts
(manifest.py lines 47-54).  Constructed only through IOSchema.construct,
which runs the field validator. -/
structure IOSchema where
  schema_type : SchemaType
  schema_definition : List (String × JsonValue)
  required : Bool
  description : Option String
deriving Repr

/-- Raw field set supplied to IOSchema construction, before validation. -/
structure RawSchema where
  schema_type : SchemaType
  schema_definition : List (String × JsonValue)
  required : Bool
  description : Option String
deriving Repr

/-- Pydantic construction of an IOSchema: the field validator runs on
schema_definition (possibly normalizing it) and construction fails when the
validator raises. -/
def IOSchema.construct (r : RawSchema) : Except String IOSchema :=
  match validate_schema_definition r.schema_type r.schema_definition with
  | .ok body => .ok ⟨r.schema_type, body, r.required, r.description⟩
  | .error e => .error e

/-- The model configuration of IOSchema is frozen (manifest.py line 49). -/
def IOSchema.model_config_frozen : Bool := true

/-- A field assignment attempted on an IOSchema after construction: one of
the four declared fields together with the value to assign. -/
inductive IOSchemaField where
  | schema_type : SchemaType → IOSchemaField
  | schema_definition : List (String × JsonValue) → IOSchemaField
  | required : Bool → IOSchemaField
  | description : Option String → IOSchemaField
deriving Repr

/-- Pydantic attribute assignment on an IOSchema.  With frozen model config
(line 49) every assignment raises a validation error; the update branch is
only reachable for a non-frozen configuration. -/
def IOSchema.setattr (s : IOSchema) (f : IOSchemaField) :
    Except String IOSchema :=
  if IOSchema.model_config_frozen then
    .error "Instance is frozen"
  else
    .ok (match f with
      | .schema_type v => { s with schema_type := v }
      | .schema_definition v => { s with schema_definition := v }
      | .required v => { s with required := v }
      | .description v => { s with description := v })

/-- Split a character list at the first occurrence of a separator,
returning the part before it and, when the separator occurs, the part
after it. -/
def splitFirstChars (cs : List Char) (c : Char) :
    List Char × Option (List Char) :=
  match cs with
  | [] => ([], none)
  | x :: xs =>
      if x = c then ([], some xs)
      else
        let r := splitFirstChars xs c
        (x :: r.1, r.2)

/-- Split a character list on every occurrence of a separator. -/
def splitAllChars (cs : List Char) (c : Char) : List (List Char) :=
  match cs with
  | [] => [[]]
  | x :: xs =>
      let r := splitAllChars xs c
      if x = c then [] :: r
      else
        match r with
        | [] => [[x]]
        | y :: ys => (x :: y) :: ys

/-- Decimal value of a non-empty all-digit character list; none
otherwise. -/
def digitsToNat (cs : List Char) : Option Nat :=
  if cs = [] then none
  else
    cs.foldl
      (fun acc ch =>
        match acc with
        | none => none
        | some n => if ch.isDigit then some (n * 10 + (ch.toNat - 48)) else none)
      (some 0)

/-- Parsed semantic version: major.minor.patch with optional pre-release and
build metadata. -/
structure Semver where
  major : Nat
  minor : Nat
  patch : Nat
  pre : Option String
  build : Option String
deriving Repr, DecidableEq

/-- Parse "major.minor.patch[-pre][+build]" from a character list: three
dot-separated numeric components, then an optional non-empty pre-release
after the first hyphen and an optional non-empty build tag after the first
plus sign. -/
def parseSemverChars (cs : List Char) : Option Semver :=
  let (rest, build) := splitFirstChars cs '+'
  let (core, pre) := splitFirstChars rest '-'
  match splitAllChars core '.' with
  | [a, b, c] =>
      match digitsToNat a, digitsToNat b, digitsToNat c with
      | some ma, some mi, some pa =>
          if pre = some [] ∨ build = some [] then none
          else
            some ⟨ma, mi, pa, pre.map String.mk, build.map String.mk⟩
      | _, _, _ => none
  | _ => none

/-- Modelled from the spec: the consumed semantic-version parser (the
external semver library imported by the source, whose use is truncated
away).  A string parses when it has the shape
"major.minor.patch[-pre][+build]". -/
def parseSemver (s : String) : Option Semver := parseSemverChars s.data

/-- Modelled from the spec: semantic-version ordering — by major, then
minor, then patch; a pre-release precedes the corresponding release;
pre-release precedence is simplified to plain string comparison. -/
def Semver.le (a b : Semver) : Bool :=
  if a.major ≠ b.major then decide (a.major < b.major)
  else if a.minor ≠ b.minor then decide (a.minor < b.minor)
  else if a.patch ≠ b.patch then decide (a.patch < b.patch)
  else
    match a.pre, b.pre with
    | none, none => true
    | some _, none => true
    | none, some _ => false
    | some x, some y => decide (x ≤ y)

/-- A single validation violation found while constructing one manifest,
carrying its field path and reason.  The invalidVersion member embeds the
spec's InvalidVersionError: it names the field and the unparsable text. -/
inductive Violation where
  | invalidVersion (field text : String)
  | unknownCapabilityType (text : String)
  | emptyName
  | schemaError (path msg : String)
deriving Repr, DecidableEq

/-- Raw field set supplied to CapabilityManifest construction.  Fields with
declared defaults in the source (id, inputs, outputs, dependencies,
description) are optional here; none means the field was omitted. -/
structure RawManifest where
  id : Option String
  module_id : String
  module_version : String
  name : String
  capability_type : String
  version : String
  inputs : Option (List (String × RawSchema))
  outputs : Option (List (String × RawSchema))
  dependencies : Option (List String)
  description : Option String
deriving Repr

/-- Core manifest defining a module's capabilities
(manifest.py lines 75-98).  The id is a UUID rendered as a string. -/
structure CapabilityManifest where
  id : String
  module_id : String
  module_version : String
  name : String
  capability_type : CapabilityType
  version : String
  inputs : List (String × IOSchema)
  outputs : List (String × IOSchema)
  dependencies : List String
  description : Option String
deriving Repr

/-- The model configuration of CapabilityManifest is frozen
(manifest.py line 80). -/
def CapabilityManifest.model_config_frozen : Bool := true

/-- All schema-level violations across one named schema map, each recorded
under its field path (map name dot key). -/
def schemaViolations (base : String) (xs : List (String × RawSchema)) :
    List Violation :=
  xs.filterMap fun p =>
    match IOSchema.construct p.2 with
    | .ok _ => none
    | .error e => some (.schemaError (base ++ "." ++ p.1) e)

/-- The validated (possibly normalized) schemas of one named schema map;
schemas that fail validation contribute nothing (construction fails before
this result is ever exposed). -/
def constructSchemas (xs : List (String × RawSchema)) :
    List (String × IOSchema) :=
  xs.filterMap fun p =>
    match IOSchema.construct p.2 with
    | .ok s => some (p.1, s)
    | .error _ => none

/-- Modelled from the spec: the semantic-version check on one version
field — an unparsable text yields an InvalidVersionError naming the field
and the text (spec 4.3; the source is truncated before this validator). -/
def versionViolations (field text : String) : List Violation :=
  match parseSemver text with
  | some _ => []
  | none => [.invalidVersion field text]

/-- Modelled from the spec (4.3, ManifestValidator): every violation across
all manifest fields and every schema in inputs and outputs, collected
without short-circuiting, in field declaration order.  The
capability-type check embeds pydantic's enum-member rejection (source);
the version checks and the name check are modelled from the spec. -/
def collectViolations (raw : RawManifest) : List Violation :=
  versionViolations "module_version" raw.module_version
    ++ (if raw.name = "" then [.emptyName] else [])
    ++ (match CapabilityType.fromString raw.capability_type with
        | some _ => []
        | none => [.unknownCapabilityType raw.capability_type])
    ++ versionViolations "version" raw.version
    ++ schemaViolations "inputs" (raw.inputs.getD [])
    ++ schemaViolations "outputs" (raw.outputs.getD [])

/-- Construction of a CapabilityManifest: all validations run, every
violation is collected, and either the fully-constructed manifest is
returned or the complete violation list (the spec's
ManifestValidationError).  Omitted fields take their declared defaults
(id from the supplied generator output genId, empty maps, empty list).
The violation aggregation mirrors pydantic's collect-all validation of
the source model; the version and name checks inside it are modelled
from the spec. -/
def CapabilityManifest.construct (genId : String) (raw : RawManifest) :
    Except (List Violation) CapabilityManifest :=
  let errs := collectViolations raw
  if errs.isEmpty then
    match CapabilityType.fromString raw.capability_type with
    | some ct =>
        .ok ⟨raw.id.getD genId, raw.module_id, raw.module_version, raw.name,
             ct, raw.version, constructSchemas (raw.inputs.getD []),
             constructSchemas (raw.outputs.getD []),
             raw.dependencies.getD [], raw.description⟩
    | none => .error errs
  else .error errs

/-- A field assignment attempted on a CapabilityManifest after
construction: one of the declared fields together with the value to
assign. -/
inductive ManifestField where
  | id : String → ManifestField
  | module_id : String → ManifestField
  | module_version : String → ManifestField
  | name : String → ManifestField
  | capability_type : CapabilityType → ManifestField
  | version : String → ManifestField
  | inputs : List (String × IOSchema) → ManifestField
  | outputs : List (String × IOSchema) → ManifestField
  | dependencies : List String → ManifestField
  | description : Option String → ManifestField
deriving Repr

/-- Pydantic attribute assignment on a CapabilityManifest.  With frozen
model config (line 80) every assignment raises a validation error; the
update branch is only reachable for a non-frozen configuration. -/
def CapabilityManifest.setattr (m : CapabilityManifest) (f : ManifestField) :
    Except String CapabilityManifest :=
  if CapabilityManifest.model_config_frozen then
    .error "Instance is frozen"
  else
    .ok (match f with
      | .id v => { m with id := v }
      | .module_id v => { m with module_id := v }
      | .module_version v => { m with module_version := v }
      | .name v => { m with name := v }
      | .capability_type v => { m with capability_type := v }
      | .version v => { m with version := v }
      | .inputs v => { m with inputs := v }
      | .outputs v => { m with outputs := v }
      | .dependencies v => { m with dependencies := v }
      | .description v => { m with description := v })

/-- Error raised by the compatibility resolver: either the two manifests
are not a valid version pair, or a version field does not parse. -/
inductive ResolveError where
  | invalidComparison (msg : String)
  | invalidVersion (field text : String)
deriving Repr, DecidableEq

/-- Rationale accompanying a compatibility verdict: the version delta, the
structural schema differences found, and whether a mismatch between the
declared version bump and a detected structural break was flagged. -/
structure Rationale where
  olderVersion : Semver
  newerVersion : Semver
  removedRequiredInputs : List String
  removedOutputs : List String
  versionMismatchFlagged : Bool
deriving Repr, DecidableEq

/-- Keys of older.inputs marked required that are absent from
newer.inputs. -/
def removedRequiredInputs (older newer : CapabilityManifest) :
    List String :=
  older.inputs.filterMap fun p =>
    if p.2.required ∧ (newer.inputs.lookup p.1).isNone then some p.1
    else none

/-- Keys of older.outputs absent from newer.outputs. -/
def removedOutputs (older newer : CapabilityManifest) : List String :=
  older.outputs.filterMap fun p =>
    if (newer.outputs.lookup p.1).isNone then some p.1 else none

/-- Modelled from the spec (4.4, CompatibilityResolver; the source is
truncated before the resolver): both manifests must share module_id and
name and newer must not precede older, else InvalidComparisonError; a
major-component difference is MAJOR as declared; otherwise a structural
break (removed required input or removed output) forces MAJOR with the
mismatch flagged in the rationale; otherwise a minor-component
difference is MINOR; otherwise PATCH. -/
def resolve (older newer : CapabilityManifest) :
    Except ResolveError (CompatibilityLevel × Rationale) :=
  match parseSemver older.version, parseSemver newer.version with
  | none, _ => .error (.invalidVersion "older.version" older.version)
  | some _, none => .error (.invalidVersion "newer.version" newer.version)
  | some vo, some vn =>
      if older.module_id ≠ newer.module_id ∨ older.name ≠ newer.name then
        .error (.invalidComparison "manifests do not share capability identity")
      else if ¬ Semver.le vo vn then
        .error (.invalidComparison "newer version precedes older version")
      else if vo.major ≠ vn.major then
        .ok (.MAJOR, ⟨vo, vn, [], [], false⟩)
      else
        let ri := removedRequiredInputs older newer
        let ro := removedOutputs older newer
        if ri ≠ [] ∨ ro ≠ [] then
          .ok (.MAJOR, ⟨vo, vn, ri, ro, true⟩)
        else if vo.minor ≠ vn.minor then
          .ok (.MINOR, ⟨vo, vn, [], [], false⟩)
        else
          .ok (.PATCH, ⟨vo, vn, [], [], false⟩)

end ACDIF

section SanityChecks
open ACDIF

example : validate_schema_definition .OPENAPI [] =
    .error "OpenAPI schema must specify version" := rfl

example : validate_schema_definition .PROTOBUF [] = .ok [] := rfl

example : validate_schema_definition .JSON_SCHEMA [("type", .str "object")] =
    .ok [("type", JsonValue.str "object"),
         ("$schema", JsonValue.str defaultJsonSchemaId)] := rfl

example : parseSemver "1.2.3" = some ⟨1, 2, 3, none, none⟩ := by decide

example : parseSemver "1.2.3-rc.1+b42" = some ⟨1, 2, 3, some "rc.1", some "b42"⟩ := by decide

example : parseSemver "1.2" = none := by decide

example : parseSemver "not-a-version" = none := by decide

example : parseSemver "1.2.3-" = none := by decide

example :
    CapabilityManifest.construct "uuid-1"
      ⟨none, "mod", "1.0.0", "cap", "storage", "0.1.0", none, none, none, none⟩ =
    .ok ⟨"uuid-1", "mod", "1.0.0", "cap", .STORAGE, "0.1.0", [], [], [], none⟩ := rfl

example :
    CapabilityManifest.construct "uuid-1"
      ⟨none, "mod", "oops", "cap", "unknown_type", "0.1.0", none,
       some [("r", ⟨.OPENAPI, [], true, none⟩)], none, none⟩ =
    .error [.invalidVersion "module_version" "oops",
            .unknownCapabilityType "unknown_type",
            .schemaError "outputs.r" "OpenAPI schema must specify version"] := rfl

end SanityChecks

namespace ACDIF

/-- Claim C5: for every IOSchema with schema_type OPENAPI whose
schema_definition lacks the key "openapi", construction always fails with
the schema validation error; it never succeeds and no default version
value is injected. -/
theorem openapi_missing_version_rejected
    (body : List (String × JsonValue)) (req : Bool) (d : Option String)
    (h : body.lookup "openapi" = none) :
    IOSchema.construct ⟨.OPENAPI, body, req, d⟩ =
      .error "OpenAPI schema must specify version" := by
  simp [IOSchema.construct, validate_schema_definition, h]

/-- Witness for C5 at the empty body. -/
theorem openapi_missing_version_rejected_witness :
    IOSchema.construct ⟨.OPENAPI, [], true, none⟩ =
      .error "OpenAPI schema must specify version" :=
  openapi_missing_version_rejected [] true none rfl

/-- Claim C6: a JSON_SCHEMA body lacking the key "$schema" is accepted and
the constructed schema_definition carries the default draft identifier
appended, every other key-value pair unchanged; a body already carrying
"$schema" is left as supplied. -/
theorem json_schema_default_injected
    (body : List (String × JsonValue)) (req : Bool) (d : Option String) :
    (body.lookup "$schema" = none →
      IOSchema.construct ⟨.JSON_SCHEMA, body, req, d⟩ =
        .ok ⟨.JSON_SCHEMA,
             body ++ [("$schema", JsonValue.str defaultJsonSchemaId)],
             req, d⟩) ∧
    ((body.lookup "$schema").isSome →
      IOSchema.construct ⟨.JSON_SCHEMA, body, req, d⟩ =
        .ok ⟨.JSON_SCHEMA, body, req, d⟩) := by
  constructor
  · intro h
    simp [IOSchema.construct, validate_schema_definition, h]
  · intro h
    simp only [Option.isSome_iff_exists] at h
    obtain ⟨w, hw⟩ := h
    simp [IOSchema.construct, validate_schema_definition, hw]

/-- Witness for C6: both branches at concrete bodies. -/
theorem json_schema_default_injected_witness :
    IOSchema.construct ⟨.JSON_SCHEMA, [("type", .str "object")], true, none⟩ =
      .ok ⟨.JSON_SCHEMA,
           [("type", JsonValue.str "object"),
            ("$schema", JsonValue.str defaultJsonSchemaId)], true, none⟩ ∧
    IOSchema.construct ⟨.JSON_SCHEMA,
        [("$schema", .str "http://json-schema.org/draft-04/schema#")],
        true, none⟩ =
      .ok ⟨.JSON_SCHEMA,
           [("$schema", JsonValue.str "http://json-schema.org/draft-04/schema#")],
           true, none⟩ :=
  ⟨(json_schema_default_injected [("type", .str "object")] true none).1 rfl,
   (json_schema_default_injected
      [("$schema", .str "http://json-schema.org/draft-04/schema#")]
      true none).2 rfl⟩

/-- Counterexample to claim C2 as stated: a PROTOBUF schema and an AVRO
schema, each with an empty schema_definition body, construct successfully;
the validator has no branch for these kinds and rejects nothing, so the
claimed failure on an empty body does not occur. -/
theorem protobuf_avro_empty_body_accepted :
    IOSchema.construct ⟨.PROTOBUF, [], true, none⟩ =
      .ok ⟨.PROTOBUF, [], true, none⟩ ∧
    IOSchema.construct ⟨.AVRO, [], true, none⟩ =
      .ok ⟨.AVRO, [], true, none⟩ :=
  ⟨rfl, rfl⟩

/-- Amended claim C2: for every IOSchema constructed with schema_type
PROTOBUF or AVRO, construction succeeds with the body passed through
unchanged whenever the body is a string-keyed mapping (presence and
mapping shape are guaranteed by the field's type); non-emptiness is not
checked, so an empty body also passes. -/
theorem protobuf_avro_body_passed_through
    (body : List (String × JsonValue)) (req : Bool) (d : Option String) :
    IOSchema.construct ⟨.PROTOBUF, body, req, d⟩ =
      .ok ⟨.PROTOBUF, body, req, d⟩ ∧
    IOSchema.construct ⟨.AVRO, body, req, d⟩ =
      .ok ⟨.AVRO, body, req, d⟩ :=
  ⟨rfl, rfl⟩

/-- A bad version field yields its InvalidVersionError among the collected
violations (version field). -/
theorem invalidVersion_mem_of_bad_version (raw : RawManifest)
    (h : parseSemver raw.version = none) :
    Violation.invalidVersion "version" raw.version ∈ collectViolations raw := by
  simp [collectViolations, versionViolations, h]

/-- A bad version field yields its InvalidVersionError among the collected
violations (module_version field). -/
theorem invalidVersion_mem_of_bad_module_version (raw : RawManifest)
    (h : parseSemver raw.module_version = none) :
    Violation.invalidVersion "module_version" raw.module_version ∈
      collectViolations raw := by
  simp [collectViolations, versionViolations, h]

/-- An unknown capability-type string yields its violation among the
collected violations. -/
theorem unknownCapabilityType_mem (raw : RawManifest)
    (h : CapabilityType.fromString raw.capability_type = none) :
    Violation.unknownCapabilityType raw.capability_type ∈
      collectViolations raw := by
  simp [collectViolations, versionViolations, h]

/-- A schema that fails validation yields its violation, under its field
path, among the violations of its schema map. -/
theorem schemaError_mem_schemaViolations (base k e : String) (s : RawSchema)
    (xs : List (String × RawSchema)) (hmem : (k, s) ∈ xs)
    (herr : IOSchema.construct s = .error e) :
    Violation.schemaError (base ++ "." ++ k) e ∈ schemaViolations base xs := by
  simp only [schemaViolations]
  refine List.mem_filterMap.mpr ⟨(k, s), hmem, ?_⟩
  simp [herr]

/-- A failing input schema's violation is among the collected violations. -/
theorem schemaError_mem_of_input (raw : RawManifest) (k e : String)
    (s : RawSchema) (hmem : (k, s) ∈ raw.inputs.getD [])
    (herr : IOSchema.construct s = .error e) :
    Violation.schemaError ("inputs" ++ "." ++ k) e ∈ collectViolations raw := by
  have h := schemaError_mem_schemaViolations "inputs" k e s _ hmem herr
  simp only [collectViolations, List.mem_append]
  tauto

/-- A failing output schema's violation is among the collected
violations. -/
theorem schemaError_mem_of_output (raw : RawManifest) (k e : String)
    (s : RawSchema) (hmem : (k, s) ∈ raw.outputs.getD [])
    (herr : IOSchema.construct s = .error e) :
    Violation.schemaError ("outputs" ++ "." ++ k) e ∈ collectViolations raw := by
  have h := schemaError_mem_schemaViolations "outputs" k e s _ hmem herr
  simp only [collectViolations, List.mem_append]
  tauto

/-- With a non-empty violation list, construction returns exactly that
list as the aggregated error. -/
theorem construct_eq_error_of_violations (g : String) (raw : RawManifest)
    (h : collectViolations raw ≠ []) :
    CapabilityManifest.construct g raw = .error (collectViolations raw) := by
  have h' : ¬((collectViolations raw).isEmpty = true) := by
    simp [List.isEmpty_iff, h]
  simp [CapabilityManifest.construct, h']

/-- With no violations and a recognized capability type, construction
succeeds with the fully-assembled manifest. -/
theorem construct_eq_ok (g : String) (raw : RawManifest) (ct : CapabilityType)
    (he : collectViolations raw = [])
    (hct : CapabilityType.fromString raw.capability_type = some ct) :
    CapabilityManifest.construct g raw =
      .ok ⟨raw.id.getD g, raw.module_id, raw.module_version, raw.name, ct,
           raw.version, constructSchemas (raw.inputs.getD []),
           constructSchemas (raw.outputs.getD []),
           raw.dependencies.getD [], raw.description⟩ := by
  simp [CapabilityManifest.construct, he, hct]

/-- Whenever construction returns an error, the reported list is exactly
the complete collected violation list. -/
theorem construct_error_eq_violations (g : String) (raw : RawManifest)
    (errs : List Violation)
    (h : CapabilityManifest.construct g raw = .error errs) :
    errs = collectViolations raw := by
  by_cases hc : (collectViolations raw).isEmpty = true
  · rcases hh : CapabilityType.fromString raw.capability_type with _ | ct
    · have hne := List.ne_nil_of_mem (unknownCapabilityType_mem raw hh)
      rw [List.isEmpty_iff] at hc
      exact absurd hc hne
    · rw [List.isEmpty_iff] at hc
      rw [construct_eq_ok g raw ct hc hh] at h
      exact absurd h (by simp)
  · simp [CapabilityManifest.construct, hc] at h
    exact h.symm

/-- Claim C1: whenever version or module_version does not parse as a
semantic version, construction fails (never succeeds) and the aggregated
error carries an InvalidVersionError naming the offending field and the
unparsable text. -/
theorem manifest_rejects_invalid_semver (g : String) (raw : RawManifest)
    (h : parseSemver raw.version = none ∨
         parseSemver raw.module_version = none) :
    CapabilityManifest.construct g raw = .error (collectViolations raw) ∧
    (parseSemver raw.version = none →
      Violation.invalidVersion "version" raw.version ∈
        collectViolations raw) ∧
    (parseSemver raw.module_version = none →
      Violation.invalidVersion "module_version" raw.module_version ∈
        collectViolations raw) := by
  have hm : collectViolations raw ≠ [] := by
    rcases h with h | h
    · exact List.ne_nil_of_mem (invalidVersion_mem_of_bad_version raw h)
    · exact List.ne_nil_of_mem (invalidVersion_mem_of_bad_module_version raw h)
  exact ⟨construct_eq_error_of_violations g raw hm,
         fun h1 => invalidVersion_mem_of_bad_version raw h1,
         fun h2 => invalidVersion_mem_of_bad_module_version raw h2⟩

/-- A raw manifest whose capability version is not a semantic version. -/
def rawBadVersion : RawManifest :=
  ⟨none, "mod", "1.0.0", "cap", "storage", "not-a-version",
   none, none, none, none⟩

/-- Witness for C1 at a concrete unparsable version string. -/
theorem manifest_rejects_invalid_semver_witness :
    CapabilityManifest.construct "uuid-1" rawBadVersion =
      .error (collectViolations rawBadVersion) ∧
    (parseSemver rawBadVersion.version = none →
      Violation.invalidVersion "version" rawBadVersion.version ∈
        collectViolations rawBadVersion) ∧
    (parseSemver rawBadVersion.module_version = none →
      Violation.invalidVersion "module_version" rawBadVersion.module_version ∈
        collectViolations rawBadVersion) :=
  manifest_rejects_invalid_semver "uuid-1" rawBadVersion (Or.inl (by decide))

/-- Claim C4: whenever construction fails, the error is exactly the
complete collected violation list — non-empty, containing the violation
of every failing schema in inputs and outputs under its field path and of
every failing manifest field — so validation does not stop at the first
violation, and (the result being an error) no manifest value is
produced. -/
theorem construct_error_reports_all_violations (g : String)
    (raw : RawManifest) (errs : List Violation)
    (h : CapabilityManifest.construct g raw = .error errs) :
    errs = collectViolations raw ∧ errs ≠ [] ∧
    (∀ k s e, (k, s) ∈ raw.inputs.getD [] →
      IOSchema.construct s = .error e →
      Violation.schemaError ("inputs" ++ "." ++ k) e ∈ errs) ∧
    (∀ k s e, (k, s) ∈ raw.outputs.getD [] →
      IOSchema.construct s = .error e →
      Violation.schemaError ("outputs" ++ "." ++ k) e ∈ errs) ∧
    (parseSemver raw.version = none →
      Violation.invalidVersion "version" raw.version ∈ errs) ∧
    (parseSemver raw.module_version = none →
      Violation.invalidVersion "module_version" raw.module_version ∈ errs) ∧
    (CapabilityType.fromString raw.capability_type = none →
      Violation.unknownCapabilityType raw.capability_type ∈ errs) := by
  have hco := construct_error_eq_violations g raw errs h
  subst hco
  refine ⟨rfl, ?_, ?_, ?_, ?_, ?_, ?_⟩
  · intro hnil
    rcases hh : CapabilityType.fromString raw.capability_type with _ | ct
    · exact List.ne_nil_of_mem (unknownCapabilityType_mem raw hh) hnil
    · rw [construct_eq_ok g raw ct hnil hh] at h
      exact absurd h (by simp)
  · exact fun k s e hm he => schemaError_mem_of_input raw k e s hm he
  · exact fun k s e hm he => schemaError_mem_of_output raw k e s hm he
  · exact fun h1 => invalidVersion_mem_of_bad_version raw h1
  · exact fun h2 => invalidVersion_mem_of_bad_module_version raw h2
  · exact fun h3 => unknownCapabilityType_mem raw h3

/-- A raw manifest with several independent violations: a bad module
version, an empty name, an unknown capability type, a bad capability
version, and a failing schema in each of inputs and outputs. -/
def rawMultiViolations : RawManifest :=
  ⟨none, "mod", "oops", "", "unknown_type", "also-bad",
   some [("a", ⟨.OPENAPI, [], true, none⟩)],
   some [("r", ⟨.OPENAPI, [], true, none⟩)], none, none⟩

/-- Witness for C4 at a concrete raw manifest carrying six violations. -/
theorem construct_error_reports_all_violations_witness :
    collectViolations rawMultiViolations = collectViolations rawMultiViolations ∧
    collectViolations rawMultiViolations ≠ [] ∧
    (∀ k s e, (k, s) ∈ rawMultiViolations.inputs.getD [] →
      IOSchema.construct s = .error e →
      Violation.schemaError ("inputs" ++ "." ++ k) e ∈
        collectViolations rawMultiViolations) ∧
    (∀ k s e, (k, s) ∈ rawMultiViolations.outputs.getD [] →
      IOSchema.construct s = .error e →
      Violation.schemaError ("outputs" ++ "." ++ k) e ∈
        collectViolations rawMultiViolations) ∧
    (parseSemver rawMultiViolations.version = none →
      Violation.invalidVersion "version" rawMultiViolations.version ∈
        collectViolations rawMultiViolations) ∧
    (parseSemver rawMultiViolations.module_version = none →
      Violation.invalidVersion "module_version"
        rawMultiViolations.module_version ∈
        collectViolations rawMultiViolations) ∧
    (CapabilityType.fromString rawMultiViolations.capability_type = none →
      Violation.unknownCapabilityType rawMultiViolations.capability_type ∈
        collectViolations rawMultiViolations) :=
  construct_error_reports_all_violations "uuid-1" rawMultiViolations
    (collectViolations rawMultiViolations) rfl

/-- The eight capability-type strings declared by the source enum. -/
def capabilityTypeValues : List String :=
  ["data_processing", "model_training", "api_integration", "storage",
   "compute", "monitoring", "validation", "transformation"]

/-- A string outside the eight enumerated values is not coerced to any
enum member. -/
theorem fromString_eq_none_of_not_mem (s : String)
    (h : s ∉ capabilityTypeValues) :
    CapabilityType.fromString s = none := by
  simp [capabilityTypeValues] at h
  obtain ⟨h1, h2, h3, h4, h5, h6, h7, h8⟩ := h
  simp [CapabilityType.fromString, h1, h2, h3, h4, h5, h6, h7, h8]

/-- Claim C8: constructing a CapabilityManifest with a capability_type
string outside the eight enumerated values fails at construction with the
corresponding violation reported; the string is not coerced to any enum
member and (the result being an error) no partial manifest is
observable. -/
theorem unknown_capability_type_rejected (g : String) (raw : RawManifest)
    (h : raw.capability_type ∉ capabilityTypeValues) :
    CapabilityManifest.construct g raw = .error (collectViolations raw) ∧
    Violation.unknownCapabilityType raw.capability_type ∈
      collectViolations raw := by
  have hn := fromString_eq_none_of_not_mem _ h
  have hmem := unknownCapabilityType_mem raw hn
  exact ⟨construct_eq_error_of_violations g raw (List.ne_nil_of_mem hmem),
         hmem⟩

/-- A raw manifest whose capability type is the unknown string
"unknown_type". -/
def rawUnknownType : RawManifest :=
  ⟨none, "mod", "1.0.0", "cap", "unknown_type", "0.1.0",
   none, none, none, none⟩

/-- Witness for C8 at the concrete string "unknown_type". -/
theorem unknown_capability_type_rejected_witness :
    CapabilityManifest.construct "uuid-1" rawUnknownType =
      .error (collectViolations rawUnknownType) ∧
    Violation.unknownCapabilityType rawUnknownType.capability_type ∈
      collectViolations rawUnknownType :=
  unknown_capability_type_rejected "uuid-1" rawUnknownType (by decide)

/-- Claim C9: construction is deterministic apart from the generated id —
two successful constructions from the same raw field set, under possibly
different generator outputs, agree on every field except id. -/
theorem construct_deterministic_except_id (g1 g2 : String)
    (raw : RawManifest) (m1 m2 : CapabilityManifest)
    (h1 : CapabilityManifest.construct g1 raw = .ok m1)
    (h2 : CapabilityManifest.construct g2 raw = .ok m2) :
    m1.module_id = m2.module_id ∧ m1.module_version = m2.module_version ∧
    m1.name = m2.name ∧ m1.capability_type = m2.capability_type ∧
    m1.version = m2.version ∧ m1.inputs = m2.inputs ∧
    m1.outputs = m2.outputs ∧ m1.dependencies = m2.dependencies ∧
    m1.description = m2.description := by
  by_cases hc : (collectViolations raw).isEmpty = true
  · rcases hh : CapabilityType.fromString raw.capability_type with _ | ct
    · simp [CapabilityManifest.construct, hc, hh] at h1
    · rw [List.isEmpty_iff] at hc
      rw [construct_eq_ok g1 raw ct hc hh] at h1
      rw [construct_eq_ok g2 raw ct hc hh] at h2
      injection h1 with e1
      injection h2 with e2
      subst e1
      subst e2
      exact ⟨rfl, rfl, rfl, rfl, rfl, rfl, rfl, rfl, rfl⟩
  · simp [CapabilityManifest.construct, hc] at h1

/-- A valid raw manifest omitting every optional field except
description. -/
def rawGood : RawManifest :=
  ⟨none, "mod", "1.0.0", "cap", "storage", "0.1.0", none, none, none, none⟩

/-- The manifest constructed from rawGood under generator output
"uuid-1". -/
def manifestA : CapabilityManifest :=
  ⟨"uuid-1", "mod", "1.0.0", "cap", .STORAGE, "0.1.0", [], [], [], none⟩

/-- The manifest constructed from rawGood under generator output
"uuid-2". -/
def manifestB : CapabilityManifest :=
  ⟨"uuid-2", "mod", "1.0.0", "cap", .STORAGE, "0.1.0", [], [], [], none⟩

/-- Witness for C9: two constructions from rawGood under different
generator outputs. -/
theorem construct_deterministic_except_id_witness :
    manifestA.module_id = manifestB.module_id ∧
    manifestA.module_version = manifestB.module_version ∧
    manifestA.name = manifestB.name ∧
    manifestA.capability_type = manifestB.capability_type ∧
    manifestA.version = manifestB.version ∧
    manifestA.inputs = manifestB.inputs ∧
    manifestA.outputs = manifestB.outputs ∧
    manifestA.dependencies = manifestB.dependencies ∧
    manifestA.description = manifestB.description :=
  construct_deterministic_except_id "uuid-1" "uuid-2" rawGood
    manifestA manifestB rfl rfl

/-- Claim C10: inputs, outputs and dependencies are optional — a raw field
set with valid identity fields that omits all three constructs
successfully with empty inputs, empty outputs and an empty dependency
list. -/
theorem omitted_contract_fields_default_empty (g : String)
    (raw : RawManifest) (ct : CapabilityType)
    (hin : raw.inputs = none) (hout : raw.outputs = none)
    (hdep : raw.dependencies = none)
    (hmv : (parseSemver raw.module_version).isSome = true)
    (hv : (parseSemver raw.version).isSome = true)
    (hct : CapabilityType.fromString raw.capability_type = some ct)
    (hn : raw.name ≠ "") :
    CapabilityManifest.construct g raw =
      .ok ⟨raw.id.getD g, raw.module_id, raw.module_version, raw.name, ct,
           raw.version, [], [], [], raw.description⟩ := by
  obtain ⟨v1, hv1⟩ := Option.isSome_iff_exists.mp hmv
  obtain ⟨v2, hv2⟩ := Option.isSome_iff_exists.mp hv
  have he : collectViolations raw = [] := by
    simp [collectViolations, versionViolations, hv1, hv2, hct, hn, hin, hout,
          schemaViolations]
  rw [construct_eq_ok g raw ct he hct]
  simp [hin, hout, hdep, constructSchemas]

/-- Witness for C10 at rawGood. -/
theorem omitted_contract_fields_default_empty_witness :
    CapabilityManifest.construct "uuid-1" rawGood =
      .ok ⟨rawGood.id.getD "uuid-1", rawGood.module_id,
           rawGood.module_version, rawGood.name, .STORAGE, rawGood.version,
           [], [], [], rawGood.description⟩ :=
  omitted_contract_fields_default_empty "uuid-1" rawGood .STORAGE
    rfl rfl rfl (by decide) (by decide) rfl (by decide)

/-- Claim C3: for a version pair (older, newer) sharing module_id and
name, whose versions differ only below the major component, a structural
break — a required input of older absent from newer, or an output of
older absent from newer — makes resolve return MAJOR with the rationale
flagging the mismatch between the declared version bump and the detected
break (versionMismatchFlagged) and listing the differences found. -/
theorem resolve_flags_understated_break (older newer : CapabilityManifest)
    (vo vn : Semver)
    (hpo : parseSemver older.version = some vo)
    (hpn : parseSemver newer.version = some vn)
    (hmid : older.module_id = newer.module_id)
    (hname : older.name = newer.name)
    (hle : Semver.le vo vn = true)
    (hmaj : vo.major = vn.major)
    (hbreak :
      (∃ k s, (k, s) ∈ older.inputs ∧ s.required = true ∧
        newer.inputs.lookup k = none) ∨
      (∃ k s, (k, s) ∈ older.outputs ∧ newer.outputs.lookup k = none)) :
    resolve older newer =
      .ok (.MAJOR,
        ⟨vo, vn, removedRequiredInputs older newer,
         removedOutputs older newer, true⟩) := by
  have hb : removedRequiredInputs older newer ≠ [] ∨
      removedOutputs older newer ≠ [] := by
    rcases hbreak with ⟨k, s, hm, hr, hl⟩ | ⟨k, s, hm, hl⟩
    · refine Or.inl (List.ne_nil_of_mem (a := k) ?_)
      simp only [removedRequiredInputs]
      refine List.mem_filterMap.mpr ⟨(k, s), hm, ?_⟩
      simp [hr, hl]
    · refine Or.inr (List.ne_nil_of_mem (a := k) ?_)
      simp only [removedOutputs]
      refine List.mem_filterMap.mpr ⟨(k, s), hm, ?_⟩
      simp [hl]
  simp [resolve, hpo, hpn, hmid, hname, hle, hmaj, hb]

/-- The older manifest of the C3 witness pair: version 1.2.0 with one
required input named "a". -/
def olderEx : CapabilityManifest :=
  ⟨"id1", "mod", "1.0.0", "cap", .STORAGE, "1.2.0",
   [("a", ⟨.PROTOBUF, [], true, none⟩)], [], [], none⟩

/-- The newer manifest of the C3 witness pair: a declared patch bump to
1.2.1 that removes the required input "a". -/
def newerEx : CapabilityManifest :=
  ⟨"id2", "mod", "1.0.0", "cap", .STORAGE, "1.2.1", [], [], [], none⟩

/-- Witness for C3 at a concrete declared-patch pair with a removed
required input. -/
theorem resolve_flags_understated_break_witness :
    resolve olderEx newerEx =
      .ok (.MAJOR,
        ⟨⟨1, 2, 0, none, none⟩, ⟨1, 2, 1, none, none⟩,
         removedRequiredInputs olderEx newerEx,
         removedOutputs olderEx newerEx, true⟩) :=
  resolve_flags_understated_break olderEx newerEx
    ⟨1, 2, 0, none, none⟩ ⟨1, 2, 1, none, none⟩
    (by decide) (by decide) rfl rfl (by decide) rfl
    (Or.inl ⟨"a", ⟨.PROTOBUF, [], true, none⟩, List.mem_singleton.mpr rfl,
      rfl, rfl⟩)

/-- Claim C7: both models are frozen value objects — every attempted field
assignment on a constructed IOSchema or CapabilityManifest fails, no
mutator succeeds, and (values being immutable) all fields, including the
nested schema_definition mappings and the inputs and outputs maps, are
unchanged by any operation. -/
theorem frozen_models_reject_assignment :
    (∀ (s : IOSchema) (f : IOSchemaField),
      IOSchema.setattr s f = .error "Instance is frozen") ∧
    (∀ (m : CapabilityManifest) (f : ManifestField),
      CapabilityManifest.setattr m f = .error "Instance is frozen") :=
  ⟨fun _ _ => rfl, fun _ _ => rfl⟩

end ACDIF
